import Mathlib

/-!
Verification of the Parking Gate controller (`src/main.c++`).

The file shallowly embeds the gate-relevant behavior of the Arduino sketch:
the allow-list check `isAuthorized`, the ultrasonic conversion
`readDistanceCM`, the `setup` routine, and one iteration of `loop` (the
control cycle).  Machine integers are modelled as `Nat`; the `float`
distance value is modelled as `ℚ` (the concrete samples appearing in the
properties are far from the 11.0 cm threshold, so rounding of the float
constant `0.034f` cannot affect any comparison proved here).  Side effects
on the servo and the blocking delays are recorded as an explicit event
trace.
-/

namespace Parking

/-- Events emitted by one pass of the sketch: a servo command
(`gateServo.write(angle)`) or a blocking delay (`delay(ms)`). -/
inductive Ev where
  | servo (angle : Nat)
  | delayMs (ms : Nat)
deriving DecidableEq, Repr

/-- `const int totalSpots = 3;` -/
def totalSpots : Nat := 3

/-- `#define FSR_THRESHOLD 500` -/
def FSR_THRESHOLD : Nat := 500

/-- `byte authorizedUID[4] = { 0x03, 0x0C, 0x49, 0x16 };` -/
def authorizedUID : List Nat := [0x03, 0x0C, 0x49, 0x16]

/-- `bool isAuthorized(byte *uid)`: compares `uid[0..3]` against
`authorizedUID`, returning `false` at the first mismatch.  The C function
receives only a pointer, so the model takes the UID buffer as a function
from index to byte; no length information reaches the check. -/
def isAuthorized (uid : Nat → Nat) : Bool :=
  (List.range 4).all fun i => uid i == authorizedUID.getD i 0

/-- The MFRC522 scan result as the sketch sees it: `rfid.uid` holds the
actual UID length (`size`) and the byte buffer (`uidByte`). -/
structure RfidScan where
  size : Nat
  uidByte : Nat → Nat

/-- The call site `isAuthorized(rfid.uid.uidByte)`: the sketch passes only
the buffer pointer, dropping `size`. -/
def scanAuthorized (r : RfidScan) : Bool :=
  isAuthorized r.uidByte

/-- `float readDistanceCM()`: `duration * 0.034f / 2.0f`, where `duration`
is the `pulseIn` result in microseconds (`0` on pulse timeout). -/
def readDistanceCM (duration : Nat) : ℚ :=
  duration * (34 / 1000) / 2

/-- The state the `loop` passes from one iteration to the next through the
globals `availableSpots` and `gateOpen`. -/
structure NodeState where
  availableSpots : Nat
  gateOpen : Bool
deriving DecidableEq, Repr

/-- The per-cycle inputs the sketch samples: the three FSR analog reads,
the RFID scan (when `PICC_IsNewCardPresent && PICC_ReadCardSerial`), and
the value `readDistanceCM()` returns this cycle (consulted only when the
gate is open). -/
structure CycleInput where
  fsr1 : Nat
  fsr2 : Nat
  fsr3 : Nat
  card : Option (Nat → Nat)
  dist : ℚ

/-- Section 1 of `loop()`: read the FSRs and count the available spots
(`availableSpots` is recomputed from scratch every cycle). -/
def countFreeSpots (inp : CycleInput) : Nat :=
  (if inp.fsr1 < FSR_THRESHOLD then 1 else 0) +
    (if inp.fsr2 < 270 then 1 else 0) +
    (if inp.fsr3 < 400 then 1 else 0)

/-- Section 2 of `loop()` (RFID authentication): when a new card was read,
an authorized UID opens the gate (`gateServo.write(0)`, `gateOpen = true`,
`delay(2000)`); an unauthorized UID only logs a denial. -/
def scanPhase (gateOpen : Bool) (card : Option (Nat → Nat)) :
    Bool × List Ev :=
  match card with
  | some uid =>
      if isAuthorized uid then
        (true, [Ev.servo 0, Ev.delayMs 2000])
      else
        (gateOpen, [])
  | none => (gateOpen, [])

/-- Section 3 of `loop()` (auto-close): only when `gateOpen`, the distance
is read and compared to the hardcoded `11.0` cm threshold; at or below it
the sketch does `delay(2500)`, `gateServo.write(90)`, `gateOpen = false`. -/
def closePhase (gateOpen : Bool) (dist : ℚ) : Bool × List Ev :=
  if gateOpen then
    if dist ≤ 11 then
      (false, [Ev.delayMs 2500, Ev.servo 90])
    else
      (gateOpen, [])
  else (gateOpen, [])

/-- One iteration of `loop()`, returning the updated globals and the trace
of servo commands and blocking delays it performs.  Note that section 3
tests the `gateOpen` value already updated by section 2, so a cycle can
both open and close the gate.  Sections 4 (OLED) and 5 (Blynk) emit no
servo events; the final `delay(500)` ends the trace. -/
def loopCycle (s : NodeState) (inp : CycleInput) : NodeState × List Ev :=
  let p1 := scanPhase s.gateOpen inp.card
  let p2 := closePhase p1.1 inp.dist
  (⟨countFreeSpots inp, p2.1⟩, p1.2 ++ p2.2 ++ [Ev.delayMs 500])

/-- `setup()`: initializes the globals (`availableSpots = totalSpots`,
`gateOpen = false`), writes the servo to the closed position (90°), then
initializes the OLED; if `display.begin` fails the sketch spins forever in
`while (true);`, modelled as `none`. -/
def setup (displayOk : Bool) : Option (NodeState × List Ev) :=
  if displayOk then some (⟨totalSpots, false⟩, [Ev.servo 90]) else none

/-- Runs a sequence of control cycles, concatenating the event traces. -/
def runCycles (s : NodeState) : List CycleInput → NodeState × List Ev
  | [] => (s, [])
  | inp :: rest =>
      let (s1, evs) := loopCycle s inp
      let (s2, evsR) := runCycles s1 rest
      (s2, evs ++ evsR)

/-- The whole node: `setup` followed by the control cycles; `none` exactly
when startup hung in the OLED failure loop. -/
def nodeRun (displayOk : Bool) (inps : List CycleInput) :
    Option (NodeState × List Ev) :=
  match setup displayOk with
  | none => none
  | some (s0, evs0) =>
      some ((runCycles s0 inps).1, evs0 ++ (runCycles s0 inps).2)

/-- The logical gate state of the spec's state machine, read off the
`gateOpen` flag. -/
inductive GateState where
  | Closed
  | Open
deriving DecidableEq, Repr

/-- `gateOpen = true` means `Open`, `false` means `Closed`. -/
def gateStateOf (b : Bool) : GateState :=
  if b then .Open else .Closed

/-- The trace of logical gate states: initial state, then the state after
each successive cycle. -/
def gateTrace (s : NodeState) : List CycleInput → List GateState
  | [] => [gateStateOf s.gateOpen]
  | inp :: rest => gateStateOf s.gateOpen :: gateTrace (loopCycle s inp).1 rest

/-- The servo angles commanded during a trace, in order. -/
def servoCmds (evs : List Ev) : List Nat :=
  evs.filterMap fun e =>
    match e with
    | Ev.servo a => some a
    | Ev.delayMs _ => none

/-- The last servo angle commanded in a trace (`init` if none was). -/
def lastServo (init : Nat) (evs : List Ev) : Nat :=
  evs.foldl (fun acc e =>
    match e with
    | Ev.servo a => a
    | Ev.delayMs _ => acc) init

/-- A buffer holding exactly the authorized UID bytes. -/
def authBuf : Nat → Nat := fun i => authorizedUID.getD i 0

/-- A UID buffer as the MFRC522 leaves it after a 7-byte scan whose first
four bytes coincide with the authorized 4-byte UID. -/
def longScanBuf : Nat → Nat := fun i =>
  [0x03, 0x0C, 0x49, 0x16, 0xAA, 0xBB, 0xCC].getD i 0


/-! ## Helper lemmas -/

theorem servoCmds_append (a b : List Ev) :
    servoCmds (a ++ b) = servoCmds a ++ servoCmds b :=
  List.filterMap_append a b _

theorem lastServo_append (i : Nat) (a b : List Ev) :
    lastServo i (a ++ b) = lastServo (lastServo i a) b :=
  List.foldl_append _ _ a b

/-- An open gate, no card this cycle, vehicle farther than the threshold:
the cycle only refreshes the spot count and delays. -/
theorem loopCycle_open_far (s : NodeState) (inp : CycleInput)
    (hopen : s.gateOpen = true) (hcard : inp.card = none)
    (hfar : 11 < inp.dist) :
    loopCycle s inp = (⟨countFreeSpots inp, true⟩, [Ev.delayMs 500]) := by
  simp [loopCycle, scanPhase, closePhase, hcard, hopen, not_le.mpr hfar]


/-! ## Claims -/

/-- Claim C1.  The claim demands the fail-safe: an Open gate fed a "no
echo" sample (pulse timeout) must never close.  The code violates it:
`pulseIn` returns `0` on timeout, `readDistanceCM` turns that into
`0 cm`, and `0 ≤ 11.0` satisfies the close guard, so a single timeout
cycle closes the gate (one close command is issued).  This theorem
evaluates the code at that failing input. -/
theorem c1_timeout_closes_gate :
    readDistanceCM 0 = 0 ∧
    (loopCycle ⟨3, true⟩ ⟨0, 0, 0, none, readDistanceCM 0⟩).1.gateOpen
      = false ∧
    servoCmds (loopCycle ⟨3, true⟩ ⟨0, 0, 0, none, readDistanceCM 0⟩).2
      = [90] := by
  have h0 : readDistanceCM 0 = 0 := by norm_num [readDistanceCM]
  refine ⟨h0, ?_, ?_⟩ <;> rw [h0] <;> decide

/-- Claim C2.  From `Closed`, a cycle carrying an authorized scan ends
`Open` having issued exactly one actuator command, the open one (provided
the same cycle's range sample does not immediately retrigger the close
guard, the combination treated separately); a cycle carrying an
unauthorized scan ends `Closed` with zero actuator commands. -/
theorem c2_closed_scan (s : NodeState) (inp : CycleInput) (uid : Nat → Nat)
    (hclosed : s.gateOpen = false) (hcard : inp.card = some uid) :
    (isAuthorized uid = true → 11 < inp.dist →
      (loopCycle s inp).1.gateOpen = true ∧
      servoCmds (loopCycle s inp).2 = [0]) ∧
    (isAuthorized uid = false →
      (loopCycle s inp).1.gateOpen = false ∧
      servoCmds (loopCycle s inp).2 = []) := by
  constructor
  · intro ha hfar
    simp [loopCycle, scanPhase, closePhase, hcard, ha, servoCmds,
      not_le.mpr hfar]
  · intro ha
    simp [loopCycle, scanPhase, closePhase, hcard, ha, hclosed, servoCmds]

/-- Witness for C2 at concrete inputs: the authorized UID opens from
`Closed`; the all-zero UID is denied and nothing is commanded. -/
theorem c2_closed_scan_witness :
    ((loopCycle ⟨3, false⟩ ⟨0, 0, 0, some authBuf, 50⟩).1.gateOpen = true ∧
      servoCmds (loopCycle ⟨3, false⟩ ⟨0, 0, 0, some authBuf, 50⟩).2
        = [0]) ∧
    ((loopCycle ⟨3, false⟩
        ⟨0, 0, 0, some (fun _ => 0), 50⟩).1.gateOpen = false ∧
      servoCmds (loopCycle ⟨3, false⟩ ⟨0, 0, 0, some (fun _ => 0), 50⟩).2
        = []) :=
  ⟨(c2_closed_scan ⟨3, false⟩ ⟨0, 0, 0, some authBuf, 50⟩ authBuf
      rfl rfl).1 (by decide) (by norm_num),
    (c2_closed_scan ⟨3, false⟩ ⟨0, 0, 0, some (fun _ => 0), 50⟩
      (fun _ => 0) rfl rfl).2 (by decide)⟩


/-- Claim C3.  From `Open` with no scan: a valid sample at or below the
11.0 cm threshold closes the gate, the full cycle trace being the 2.5 s
settle delay, then exactly one close command, then the end-of-loop delay;
a sample strictly above the threshold leaves the gate `Open` with no
actuator command, however many times the cycle repeats. -/
theorem c3_autoclose (s : NodeState) (inp : CycleInput)
    (hopen : s.gateOpen = true) (hcard : inp.card = none) :
    (inp.dist ≤ 11 →
      (loopCycle s inp).1.gateOpen = false ∧
      (loopCycle s inp).2 =
        [Ev.delayMs 2500, Ev.servo 90, Ev.delayMs 500]) ∧
    (11 < inp.dist →
      ∀ n, (runCycles s (List.replicate n inp)).1.gateOpen = true ∧
        servoCmds (runCycles s (List.replicate n inp)).2 = []) := by
  constructor
  · intro hnear
    simp [loopCycle, scanPhase, closePhase, hcard, hopen, hnear]
  · intro hfar n
    induction n generalizing s with
    | zero => simpa [runCycles, servoCmds] using hopen
    | succ n ih =>
        have hstep := loopCycle_open_far s inp hopen hcard hfar
        have ihs := ih ⟨countFreeSpots inp, true⟩ rfl
        rw [List.replicate_succ]
        simp only [runCycles, hstep]
        exact ⟨ihs.1, by rw [servoCmds_append, ihs.2]; rfl⟩

/-- Witness for C3: from `Open`, a 10 cm sample closes with the settle
delay then one close command; a 20 cm sample repeated 5 times leaves the
gate `Open` with no actuator command. -/
theorem c3_autoclose_witness :
    ((loopCycle ⟨3, true⟩ ⟨0, 0, 0, none, 10⟩).1.gateOpen = false ∧
      (loopCycle ⟨3, true⟩ ⟨0, 0, 0, none, 10⟩).2 =
        [Ev.delayMs 2500, Ev.servo 90, Ev.delayMs 500]) ∧
    ((runCycles ⟨3, true⟩
        (List.replicate 5 ⟨0, 0, 0, none, 20⟩)).1.gateOpen = true ∧
      servoCmds (runCycles ⟨3, true⟩
        (List.replicate 5 ⟨0, 0, 0, none, 20⟩)).2 = []) :=
  ⟨(c3_autoclose ⟨3, true⟩ ⟨0, 0, 0, none, 10⟩ rfl rfl).1 (by norm_num),
    (c3_autoclose ⟨3, true⟩ ⟨0, 0, 0, none, 20⟩ rfl rfl).2 (by norm_num) 5⟩

/-- Claim C4.  `isAuthorized` accepts a 4-byte UID exactly when it equals
`{0x03, 0x0C, 0x49, 0x16}` byte for byte; in particular, changing any
single byte of the authorized value to anything else makes it reject. -/
theorem c4_exact_match :
    (∀ uid : Nat → Nat,
      isAuthorized uid = true ↔
        (uid 0 = 0x03 ∧ uid 1 = 0x0C ∧ uid 2 = 0x49 ∧ uid 3 = 0x16)) ∧
    (∀ i b : Nat, i < 4 → b ≠ authorizedUID.getD i 0 →
      isAuthorized (fun j => if j = i then b else authorizedUID.getD j 0)
        = false) := by
  have hall : ∀ uid : Nat → Nat,
      isAuthorized uid = true ↔
        (uid 0 = 0x03 ∧ uid 1 = 0x0C ∧ uid 2 = 0x49 ∧ uid 3 = 0x16) := by
    intro uid
    show ([0, 1, 2, 3].all fun i => uid i == authorizedUID.getD i 0)
        = true ↔ _
    simp [authorizedUID, and_assoc]
  refine ⟨hall, ?_⟩
  intro i b hi hb
  rw [Bool.eq_false_iff]
  intro hacc
  have h := (hall _).mp hacc
  interval_cases i <;> simp_all [authorizedUID]

/-- Witness for C4: the exact UID is accepted; perturbing byte 0 of the
authorized value to `0x04` is rejected. -/
theorem c4_exact_match_witness :
    isAuthorized authBuf = true ∧
    isAuthorized (fun j => if j = 0 then 0x04 else authorizedUID.getD j 0)
      = false :=
  ⟨(c4_exact_match.1 authBuf).mpr ⟨rfl, rfl, rfl, rfl⟩,
    c4_exact_match.2 0 0x04 (by norm_num) (by decide)⟩

/-- Claim C5.  The claim demands rejection of any scan whose length is not
exactly 4 bytes.  The code violates it: `isAuthorized` receives only the
`uidByte` pointer and never consults `rfid.uid.size`, so a 7-byte scan
whose first four buffer bytes happen to equal the authorized UID is
accepted.  This theorem evaluates the code at that failing input. -/
theorem c5_length_ignored :
    (RfidScan.mk 7 longScanBuf).size ≠ 4 ∧
    scanAuthorized ⟨7, longScanBuf⟩ = true := by
  exact ⟨by decide, by decide⟩

/-- The end-to-end scenario inputs: an authorized scan (the vehicle still
50 cm away, so the same-cycle range read stays above the threshold), then
a 50 cm sample, then an 8 cm sample. -/
def c6Inputs : List CycleInput :=
  [⟨0, 0, 0, some authBuf, 50⟩,
   ⟨0, 0, 0, none, 50⟩,
   ⟨0, 0, 0, none, 8⟩]

/-- Claim C6.  Starting from the state `setup` leaves (gate closed), the
scenario [scan(authorized), distance(50), distance(8)] produces the gate
state trace Closed, Open, Open, Closed.  (The code's threshold is the
hardcoded 11.0 cm; 50 and 8 fall on the same sides of it as of the 12.0 cm
the scenario names.) -/
theorem c6_end_to_end :
    (setup true).map Prod.fst = some ⟨totalSpots, false⟩ ∧
    gateTrace ⟨totalSpots, false⟩ c6Inputs =
      [GateState.Closed, GateState.Open, GateState.Open,
        GateState.Closed] := by
  exact ⟨by decide, by decide⟩


/-- Claim C7.  A scan delivered while the gate is `Open` has no
state-changing effect: the post-cycle state equals that of the identical
cycle without the scan, the only extra events being the redundant re-issue
of the open command (and its delay) when the scan is authorized; when the
range sample is above the threshold the gate is still `Open` afterwards. -/
theorem c7_scan_while_open (s : NodeState) (inp : CycleInput)
    (uid : Nat → Nat) (hopen : s.gateOpen = true)
    (hcard : inp.card = some uid) :
    (loopCycle s inp).1 = (loopCycle s { inp with card := none }).1 ∧
    (loopCycle s inp).2 =
      (if isAuthorized uid then [Ev.servo 0, Ev.delayMs 2000] else []) ++
        (loopCycle s { inp with card := none }).2 ∧
    (11 < inp.dist → (loopCycle s inp).1.gateOpen = true) := by
  cases ha : isAuthorized uid with
  | false =>
      refine ⟨?_, ?_, fun hfar => ?_⟩
      · simp [loopCycle, scanPhase, closePhase, countFreeSpots, hcard, ha]
      · simp [loopCycle, scanPhase, hcard, ha]
      · simp [loopCycle, scanPhase, closePhase, hcard, hopen, ha,
          not_le.mpr hfar]
  | true =>
      refine ⟨?_, ?_, fun hfar => ?_⟩
      · simp [loopCycle, scanPhase, closePhase, countFreeSpots, hcard,
          hopen, ha]
      · simp [loopCycle, scanPhase, hcard, hopen, ha]
      · simp [loopCycle, scanPhase, closePhase, hcard, hopen, ha,
          not_le.mpr hfar]

/-- Witness for C7: an authorized re-scan at 20 cm leaves the gate `Open`,
same state as without the scan, with only the redundant open re-issue. -/
theorem c7_scan_while_open_witness :
    (loopCycle ⟨3, true⟩ ⟨0, 0, 0, some authBuf, 20⟩).1 =
      (loopCycle ⟨3, true⟩ ⟨0, 0, 0, none, 20⟩).1 ∧
    (loopCycle ⟨3, true⟩ ⟨0, 0, 0, some authBuf, 20⟩).2 =
      (if isAuthorized authBuf then [Ev.servo 0, Ev.delayMs 2000]
        else []) ++ (loopCycle ⟨3, true⟩ ⟨0, 0, 0, none, 20⟩).2 ∧
    (loopCycle ⟨3, true⟩ ⟨0, 0, 0, some authBuf, 20⟩).1.gateOpen = true :=
  ⟨(c7_scan_while_open ⟨3, true⟩ ⟨0, 0, 0, some authBuf, 20⟩ authBuf
      rfl rfl).1,
    (c7_scan_while_open ⟨3, true⟩ ⟨0, 0, 0, some authBuf, 20⟩ authBuf
      rfl rfl).2.1,
    (c7_scan_while_open ⟨3, true⟩ ⟨0, 0, 0, some authBuf, 20⟩ authBuf
      rfl rfl).2.2 (by norm_num)⟩

/-- Any single cycle keeps the actuator/state correspondence: if the last
servo command before the cycle matches the gate state, so does the one
after. -/
theorem loopCycle_lastServo (s : NodeState) (inp : CycleInput) (i : Nat)
    (h : i = if s.gateOpen then 0 else 90) :
    lastServo i (loopCycle s inp).2 =
      if (loopCycle s inp).1.gateOpen then 0 else 90 := by
  subst h
  rcases hc : inp.card with _ | uid
  · by_cases hd : inp.dist ≤ 11 <;>
      rcases hg : s.gateOpen with _ | _ <;>
        simp [loopCycle, scanPhase, closePhase, hc, hg, hd, lastServo]
  · rcases ha : isAuthorized uid with _ | _
    · by_cases hd : inp.dist ≤ 11 <;>
        rcases hg : s.gateOpen with _ | _ <;>
          simp [loopCycle, scanPhase, closePhase, hc, ha, hg, hd,
            lastServo]
    · by_cases hd : inp.dist ≤ 11 <;>
        simp [loopCycle, scanPhase, closePhase, hc, ha, hd, lastServo]

/-- The actuator/state correspondence is preserved along any run. -/
theorem runCycles_lastServo (inps : List CycleInput) (s : NodeState)
    (i : Nat) (h : i = if s.gateOpen then 0 else 90) :
    lastServo i (runCycles s inps).2 =
      if (runCycles s inps).1.gateOpen then 0 else 90 := by
  induction inps generalizing s i with
  | nil => simpa [runCycles, lastServo] using h
  | cons inp rest ih =>
      simp only [runCycles]
      rw [lastServo_append]
      exact ih (loopCycle s inp).1 _ (loopCycle_lastServo s inp i h)

/-- Claim C8.  Along every run of the node (setup, then any sequence of
control cycles), the last commanded servo angle is a pure function of the
gate state: 90° when `Closed`, 0° when `Open`. -/
theorem c8_actuator_invariant (inps : List CycleInput) (s : NodeState)
    (evs : List Ev) (h : nodeRun true inps = some (s, evs)) :
    lastServo 90 evs = if s.gateOpen then 0 else 90 := by
  have hrun : nodeRun true inps =
      some ((runCycles ⟨totalSpots, false⟩ inps).1,
        Ev.servo 90 :: (runCycles ⟨totalSpots, false⟩ inps).2) := rfl
  rw [hrun] at h
  simp only [Option.some.injEq, Prod.mk.injEq] at h
  obtain ⟨hs, hevs⟩ := h
  subst hs
  rw [← hevs]
  show lastServo 90 (runCycles ⟨totalSpots, false⟩ inps).2 = _
  exact runCycles_lastServo inps ⟨totalSpots, false⟩ 90 rfl

/-- Witness for C8: the empty run ends `Closed` with last command 90°. -/
theorem c8_actuator_invariant_witness :
    lastServo 90 [Ev.servo 90] = 90 :=
  c8_actuator_invariant [] ⟨totalSpots, false⟩ [Ev.servo 90] rfl

/-- Claim C9.  The node halts (never reaching the control loop) exactly
when display initialization fails at startup; for every sequence of
per-cycle inputs — failed scans, unauthorized UIDs, range timeouts
included — a successfully started node produces a result, so no runtime
error halts it or escapes the core. -/
theorem c9_halt_iff_display_failure (displayOk : Bool)
    (inps : List CycleInput) :
    nodeRun displayOk inps = none ↔ displayOk = false := by
  cases displayOk <;> simp [nodeRun, setup]

/-- Claim C10.  One cycle from `Closed` with an authorized scan and an
8 cm sample both opens and closes the gate: the trace is the open command,
the 2 s settle, the 2.5 s settle, the close command, the loop delay, and
the cycle ends `Closed`. -/
theorem c10_open_and_close_same_cycle :
    (loopCycle ⟨totalSpots, false⟩
      ⟨0, 0, 0, some authBuf, 8⟩).1.gateOpen = false ∧
    (loopCycle ⟨totalSpots, false⟩ ⟨0, 0, 0, some authBuf, 8⟩).2 =
      [Ev.servo 0, Ev.delayMs 2000, Ev.delayMs 2500, Ev.servo 90,
        Ev.delayMs 500] := by
  exact ⟨by decide, by decide⟩

end Parking

